import Mathlib

/-!
# micro-exporter: the command bootstrap (`cmd/root.go`)

A shallow embedding of `init`, `initConfig`, `newNatsConnection` and `start`
from `cmd/root.go`.  The libraries the file calls (cobra/pflag, viper, nats,
prometheus, net/http, slog) are not part of the repository; every call into
them is recorded as an effect, and what they return is read from a `World`.
-/

namespace MicroExporter

/-! ## Flags and settings -/

/-- A Go value held by a flag, or returned by `viper.Get`: the flags of
`init` are `String` and `Int` flags, environment values are strings. -/
inductive Value where
  | str (s : String)
  | int (n : Int)
  deriving DecidableEq, Repr

/-- One flag of `rootCmd` together with the viper key `init` binds it to:
`rootCmd.Flags().T(name, defValue, usage)` followed by
`viper.BindPFlag(key, rootCmd.Flags().Lookup(name))`. -/
structure FlagDef where
  name : String
  key : String
  defValue : Value
  usage : String
  deriving DecidableEq, Repr

/-- The flags registered and bound by `init`, in source order. -/
def rootFlags : List FlagDef :=
  [ ⟨"name", "name", .str "micro-exporter", "connection name"⟩,
    ⟨"port", "port", .int 10015, "exporter port"⟩,
    ⟨"server", "nats_urls", .str "nats://localhost:4222", "NATS URLs"⟩,
    ⟨"creds", "credentials_file", .str "", "User credentials"⟩,
    ⟨"jwt", "nats_jwt", .str "", "User JWT"⟩,
    ⟨"seed", "nats_seed", .str "", "User seed"⟩,
    ⟨"scrape-interval", "scrape_interval", .int 15,
      "Scrape interval to look up new services in seconds"⟩ ]

/-- The package variable `replacer = strings.NewReplacer("-", "_")`. -/
def replacer (s : String) : String :=
  String.mk (s.data.map fun c => if c = '-' then '_' else c)

/-- The name of the environment variable viper reads for a key once
`initConfig` has run `viper.AutomaticEnv()` and
`viper.SetEnvKeyReplacer(replacer)`: the key in upper case (no prefix is
set), passed through the replacer. -/
def envKey (key : String) : String :=
  replacer (String.mk (key.data.map Char.toUpper))

/-! ## The world outside the program -/

/-- A connection handle (`*nats.Conn`) handed back by the NATS client. -/
structure Conn where
  id : Nat
  deriving DecidableEq, Repr

/-- The logger built by `slog.New(slog.NewTextHandler(os.Stdout, nil))`. -/
inductive Logger where
  | textStdout
  deriving DecidableEq, Repr

/-- The value `exporter.New(nc, logger)` hands back, represented by the
arguments it was built from (package `exporter` is a collaborator). -/
structure Exporter where
  nc : Conn
  logger : Logger
  deriving DecidableEq, Repr

/-- The connection options `newNatsConnection` builds. -/
inductive NatsOption where
  | name (s : String)
  | userJWTAndSeed (jwt seed : String)
  | userCredentials (file : String)
  deriving DecidableEq, Repr

/-- The two ways `newNatsConnection` dials:
`natscontext.Connect(name, opts...)` and `nats.Connect(urls, opts...)`. -/
inductive ConnectCall where
  | contextConnect (name : String) (opts : List NatsOption)
  | natsConnect (urls : String) (opts : List NatsOption)
  deriving DecidableEq, Repr

/-- The HTTP handlers `start` installs. -/
inductive Handler where
  | promhttp
  | page (body : String)
  deriving DecidableEq, Repr

/-- A call into a collaborator made by `newNatsConnection` or `start`. -/
inductive Call where
  | slogDebug (msg : String)
  | connect (c : ConnectCall)
  | exporterNew (nc : Conn) (logger : Logger)
  | mustRegister (ex : Exporter)
  | watchForServices (ex : Exporter) (interval : Int)
  | httpHandle (pattern : String) (h : Handler)
  | httpHandleFunc (pattern : String) (h : Handler)
  | loggerInfo (logger : Logger) (msg : String)
  | listenAndServe (addr : String)
  deriving DecidableEq, Repr

/-- An argument value at a call site. -/
inductive Arg where
  | conn (nc : Conn)
  | logger (l : Logger)
  | exporter (ex : Exporter)
  | int (n : Int)
  | str (s : String)
  | opts (os : List NatsOption)
  | handler (h : Handler)
  | nil
  deriving DecidableEq, Repr

/-- The arguments a call receives, in source order (a method call lists
its receiver first; `http.ListenAndServe(port, nil)` has a nil handler). -/
def Call.args : Call → List Arg
  | .slogDebug msg => [.str msg]
  | .connect (.contextConnect name os) => [.str name, .opts os]
  | .connect (.natsConnect urls os) => [.str urls, .opts os]
  | .exporterNew nc l => [.conn nc, .logger l]
  | .mustRegister ex => [.exporter ex]
  | .watchForServices ex n => [.exporter ex, .int n]
  | .httpHandle p h => [.str p, .handler h]
  | .httpHandleFunc p h => [.str p, .handler h]
  | .loggerInfo l msg => [.logger l, .str msg]
  | .listenAndServe addr => [.str addr, .nil]

/-- The calls `start` makes synchronously between connecting and
`http.ListenAndServe`. -/
def Call.isSetup : Call → Bool
  | .exporterNew _ _ => true
  | .mustRegister _ => true
  | .httpHandle _ _ => true
  | .httpHandleFunc _ _ => true
  | .loggerInfo _ _ => true
  | _ => false

/-- What one run observes: a synchronous call, or the launch of a
goroutine by a `go` statement. -/
inductive Effect where
  | called (c : Call)
  | spawned (c : Call)
  deriving DecidableEq, Repr

/-- Everything outside the program that one run of the command depends on.
`args`: the flags set on the command line, by flag name, as pflag parsed
them.  `environ`: the process environment.  `castToInt`: what viper's
`GetInt` makes of a string value (`cast.ToInt`).  `dial`: the outcome of a
connection attempt.  `returns`: whether a synchronous call made by `start`
comes back (it does not when it panics or blocks for ever).
`serveError`: the error `http.ListenAndServe` returns when it returns. -/
structure World where
  args : List (String × Value)
  environ : List (String × String)
  castToInt : String → Int
  dial : ConnectCall → Except String Conn
  returns : Call → Bool
  serveError : String

/-! ## viper lookups, as configured by `init` and `initConfig` -/

/-- The lookup viper makes in the environment for a key under
`AutomaticEnv`: `os.LookupEnv` of the derived name; an empty value counts
as unset (`AllowEmptyEnv` is not enabled). -/
def getEnv (w : World) (key : String) : Option String :=
  match w.environ.lookup (envKey key) with
  | some v => if v = "" then none else some v
  | none => none

/-- The search `viper.Get(key)` performs with the sources this program sets up,
in viper's order of precedence: a bound flag that was set on the command
line, then the environment, then the bound flag's default.  (No `Set`
override, config file, key/value store or `SetDefault` is used.) -/
def find (w : World) (key : String) : Option Value :=
  match rootFlags.find? (fun f => f.key == key) with
  | some f =>
    match w.args.lookup f.name with
    | some v => some v
    | none =>
      match getEnv w key with
      | some s => some (.str s)
      | none => some f.defValue
  | none => (getEnv w key).map Value.str

/-- The function `viper.GetString`. -/
def getString (w : World) (key : String) : String :=
  match find w key with
  | some (.str s) => s
  | some (.int n) => toString n
  | none => ""

/-- The function `viper.GetInt`. -/
def getInt (w : World) (key : String) : Int :=
  match find w key with
  | some (.int n) => n
  | some (.str s) => w.castToInt s
  | none => 0

/-! ## `newNatsConnection` -/

/-- The guard of the first `if` of `newNatsConnection`:
`credentials_file == "" && nats_jwt == "" && ok`, where `ok` is the second
result of `os.LookupEnv("USER")`. -/
def useContext (w : World) : Bool :=
  getString w "credentials_file" == "" && getString w "nats_jwt" == "" &&
    (w.environ.lookup "USER").isSome

/-- The option list `newNatsConnection` has built when it reaches
`nats.Connect`. -/
def connectOpts (w : World) (name : String) : List NatsOption :=
  let opts := [NatsOption.name name]
  let opts :=
    if getString w "nats_jwt" != "" && getString w "nats_seed" != "" then
      opts ++ [.userJWTAndSeed (getString w "nats_jwt") (getString w "nats_seed")]
    else opts
  let opts :=
    if getString w "credentials_file" != "" then
      opts ++ [.userCredentials (getString w "credentials_file")]
    else opts
  opts

/-- The function `newNatsConnection(name)`: the calls it makes, and the
connection or error it returns. -/
def newNatsConnection (w : World) (name : String) :
    List Effect × Except String Conn :=
  let opts := [NatsOption.name name]
  if useContext w then
    ([.called (.slogDebug "using NATS context"),
      .called (.connect (.contextConnect "" opts))],
     w.dial (.contextConnect "" opts))
  else
    let c := ConnectCall.natsConnect (getString w "nats_urls") (connectOpts w name)
    ([.called (.connect c)], w.dial c)

/-! ## `start` -/

/-- A statement of `start` that calls a collaborator: a plain call, or a
`go` statement. -/
inductive Step where
  | call (c : Call)
  | go (c : Call)
  deriving DecidableEq, Repr

/-- Run statements in order.  A plain call that does not come back stops
the run there; a `go` statement launches its call and goes on at once.
The flag tells whether the last statement was completed. -/
def runSteps (returns : Call → Bool) : List Step → List Effect × Bool
  | [] => ([], true)
  | .call c :: rest =>
    if returns c then
      let r := runSteps returns rest
      (.called c :: r.1, r.2)
    else ([.called c], false)
  | .go c :: rest =>
    let r := runSteps returns rest
    (.spawned c :: r.1, r.2)

/-- The page the handler for `/` writes. -/
def indexPage : String :=
  "<html>" ++
  "<head><title>Micro Stats Exporter</title></head>" ++
  "<body>\n<h1>Micro Stats Exporter</h1>" ++
  "<p><a href=\x27/metrics\x27>Metrics</a></p>" ++
  "</body>\n</html>"

/-- One run of `start`: the effects in order, and the error `start`
returned (`none` while it has not returned). -/
structure Run where
  trace : List Effect
  returned : Option String
  deriving DecidableEq, Repr

/-- The function `start`. -/
def start (w : World) : Run :=
  let logger := Logger.textStdout
  match newNatsConnection w (getString w "name") with
  | (t, .error err) => ⟨t, some err⟩
  | (t, .ok nc) =>
    let ex : Exporter := ⟨nc, logger⟩
    let port := ":" ++ toString (getInt w "port")
    let r := runSteps w.returns
      [ .call (.exporterNew nc logger),
        .call (.mustRegister ex),
        .go (.watchForServices ex (getInt w "scrape_interval")),
        .call (.httpHandle "/metrics" .promhttp),
        .call (.httpHandleFunc "/" (.page indexPage)),
        .call (.loggerInfo logger ("starting server on port " ++ port)),
        .call (.listenAndServe port) ]
    ⟨t ++ r.1, if r.2 then some w.serveError else none⟩

/-- Read a short, unsigned string of decimal digits.  This is not a model
of `cast.ToInt` (no sign, no base prefixes, no range check); it only
supplies `castToInt` in the concrete worlds below, whose environment values
are "30" and "8080", where both give 30 and 8080. -/
def readDecimal (s : String) : Int :=
  Int.ofNat (s.data.foldl (fun acc c => 10 * acc + (c.toNat - 48)) 0)

/-- A world with no flags and an empty environment, in which every
connection attempt yields connection 0 and every call returns. -/
def quietWorld : World :=
  { args := [], environ := [], castToInt := readDecimal,
    dial := fun _ => .ok ⟨0⟩, returns := fun _ => true, serveError := "closed" }

/-- Whether an effect is the launch of a goroutine. -/
def Effect.isSpawned : Effect → Bool
  | .spawned _ => true
  | .called _ => false

/-- Whether an effect is a call of the constructor `exporter.New`. -/
def Effect.isConstructorCall : Effect → Bool
  | .called (.exporterNew _ _) => true
  | _ => false

/-- The quiet world with `SCRAPE_INTERVAL=30` in the environment. -/
def intervalEnvWorld : World :=
  { quietWorld with environ := [("SCRAPE_INTERVAL", "30")] }

/-- The quiet world with `PORT=8080` in the environment. -/
def portEnvWorld : World :=
  { quietWorld with environ := [("PORT", "8080")] }

/-- The quiet world started with `--scrape-interval=30 --port=9100`. -/
def flagsWorld : World :=
  { quietWorld with args := [("scrape-interval", .int 30), ("port", .int 9100)] }

/-- The quiet world started with `--scrape-interval=0`. -/
def zeroIntervalWorld : World :=
  { quietWorld with args := [("scrape-interval", .int 0)] }

/-- The quiet world started with `--scrape-interval=-5`. -/
def negativeIntervalWorld : World :=
  { quietWorld with args := [("scrape-interval", .int (-5))] }

/-- A login shell: `USER` is set, started with
`--server nats://demo.example:4222 --seed S`. -/
def loginWorld : World :=
  { quietWorld with
    args := [("server", .str "nats://demo.example:4222"), ("seed", .str "S")],
    environ := [("USER", "alice")] }

/-- A container without `USER`, started with `--creds /etc/nats.creds`. -/
def credsWorld : World :=
  { quietWorld with args := [("creds", .str "/etc/nats.creds")] }

/-- A world with `USER` set to the empty string in which neither
`WatchForServices` nor `ListenAndServe` ever returns. -/
def busyWorld : World :=
  { quietWorld with environ := [("USER", "")], returns := Call.isSetup }

/-! ## The snapshot built by the poller (package `exporter`)

Package `exporter` is part of the repository but not among the sources at
hand; only its caller `start` is.  The definitions of this section follow
the specification (sections 3 and 4.3). -/

/-- Modelled from the spec: the type `ServiceIdentity` of the missing
package `exporter`, "{name, version, instance-id}", which "uniquely
identifies one running service instance". -/
structure ServiceIdentity where
  name : String
  version : String
  instanceId : String
  deriving DecidableEq, Repr

/-- Modelled from the spec: the type `EndpointStat` of the missing package
`exporter`: endpoint name, subject pattern, requests-total, errors-total,
processing-time-total, average-processing-time and a nullable last-error
(durations in nanoseconds). -/
structure EndpointStat where
  name : String
  subject : String
  requestsTotal : Nat
  errorsTotal : Nat
  processingTimeTotal : Nat
  averageProcessingTime : Nat
  lastError : Option String
  deriving DecidableEq, Repr

/-- Modelled from the spec: the type `ServiceStat` of the missing package
`exporter`, one decoded stats response: "{ServiceIdentity, started-at,
ordered sequence of EndpointStat}". -/
structure ServiceStat where
  identity : ServiceIdentity
  startedAt : Nat
  endpoints : List EndpointStat
  deriving DecidableEq, Repr

/-- Modelled from the spec: the type `Snapshot` of the missing package
`exporter`: "{captured-at timestamp, mapping from ServiceIdentity to
ServiceStat}", the mapping kept as the list of its entries. -/
structure Snapshot where
  capturedAt : Nat
  entries : List (ServiceIdentity × ServiceStat)
  deriving DecidableEq, Repr

/-- Modelled from the spec: storing one response in the mapping of the
missing poller: "dedup by ServiceIdentity", "a duplicate identity
overwrites, never duplicates". -/
def putStat : List (ServiceIdentity × ServiceStat) → ServiceStat →
    List (ServiceIdentity × ServiceStat)
  | [], s => [(s.identity, s)]
  | (k, v) :: rest, s =>
    if k = s.identity then (k, s) :: rest else (k, v) :: putStat rest s

/-- Modelled from the spec: the snapshot build of the missing poller:
"fold results into a new Snapshot", over the valid responses of one cycle
in the order they were received. -/
def buildSnapshot (capturedAt : Nat) (responses : List ServiceStat) : Snapshot :=
  ⟨capturedAt, responses.foldl putStat []⟩

/-- Modelled from the spec: the keys of the mapping of a Snapshot of the
missing package `exporter`. -/
def Snapshot.identities (snap : Snapshot) : List ServiceIdentity :=
  snap.entries.map Prod.fst

/-- Modelled from the spec: reading the mapping of a Snapshot of the
missing package `exporter` at one identity. -/
def Snapshot.get (snap : Snapshot) (id : ServiceIdentity) : Option ServiceStat :=
  snap.entries.lookup id

/-- A response of instance `inst-1` of service `A`, version `v1`. -/
def statA : ServiceStat :=
  ⟨⟨"A", "v1", "inst-1"⟩, 100, [⟨"process", "a.process", 10, 0, 500, 50, none⟩]⟩

/-- A later response of the same instance, with other counters. -/
def statAlater : ServiceStat :=
  ⟨⟨"A", "v1", "inst-1"⟩, 100, [⟨"process", "a.process", 12, 1, 600, 50, some "boom"⟩]⟩

/-- A response of instance `inst-2` of the same service. -/
def statB : ServiceStat :=
  ⟨⟨"A", "v1", "inst-2"⟩, 200, [⟨"process", "a.process", 0, 0, 0, 0, none⟩]⟩

/-- The bus connection of this run succeeded and gave `nc`. -/
def Connected (w : World) (nc : Conn) : Prop :=
  (newNatsConnection w (getString w "name")).2 = .ok nc

/-- Every synchronous call `start` makes between connecting and
`http.ListenAndServe` comes back.  Nothing is asked of `WatchForServices`
or of `ListenAndServe`. -/
def SetupReturns (w : World) : Prop :=
  ∀ c : Call, c.isSetup = true → w.returns c = true

/-! ## Lemmas on the lookups -/

theorem find_of_flag_given (w : World) (f : FlagDef) (key : String) (v : Value)
    (hf : rootFlags.find? (fun f => f.key == key) = some f)
    (hv : w.args.lookup f.name = some v) : find w key = some v := by
  simp [find, hf, hv]

theorem find_of_env (w : World) (f : FlagDef) (key s : String)
    (hf : rootFlags.find? (fun f => f.key == key) = some f)
    (hv : w.args.lookup f.name = none) (he : getEnv w key = some s) :
    find w key = some (.str s) := by
  simp [find, hf, hv, he]

theorem find_of_default (w : World) (f : FlagDef) (key : String)
    (hf : rootFlags.find? (fun f => f.key == key) = some f)
    (hv : w.args.lookup f.name = none) (he : getEnv w key = none) :
    find w key = some f.defValue := by
  simp [find, hf, hv, he]

/-! ## Lemmas on `start` -/

/-- The whole trace of a run whose connection succeeds and whose setup
calls return. -/
theorem start_trace (w : World) (nc : Conn) (hc : Connected w nc)
    (hs : SetupReturns w) :
    (start w).trace =
      (newNatsConnection w (getString w "name")).1 ++
        [ .called (.exporterNew nc .textStdout),
          .called (.mustRegister ⟨nc, .textStdout⟩),
          .spawned (.watchForServices ⟨nc, .textStdout⟩ (getInt w "scrape_interval")),
          .called (.httpHandle "/metrics" .promhttp),
          .called (.httpHandleFunc "/" (.page indexPage)),
          .called (.loggerInfo .textStdout
            ("starting server on port " ++ (":" ++ toString (getInt w "port")))),
          .called (.listenAndServe (":" ++ toString (getInt w "port"))) ] := by
  unfold Connected at hc
  have h1 := hs (.exporterNew nc .textStdout) rfl
  have h2 := hs (.mustRegister ⟨nc, .textStdout⟩) rfl
  have h3 := hs (.httpHandle "/metrics" .promhttp) rfl
  have h4 := hs (.httpHandleFunc "/" (.page indexPage)) rfl
  have h5 := hs (.loggerInfo .textStdout
    ("starting server on port " ++ (":" ++ toString (getInt w "port")))) rfl
  unfold start
  generalize newNatsConnection w (getString w "name") = r at hc ⊢
  obtain ⟨t, res⟩ := r
  simp only at hc
  subst hc
  simp [runSteps, h1, h2, h3, h4, h5]
  split <;> rfl

/-- No effect of `newNatsConnection` is a `WatchForServices` or a
`ListenAndServe`. -/
theorem newNatsConnection_trace_cases (w : World) (name : String) (e : Effect)
    (he : e ∈ (newNatsConnection w name).1) :
    (∃ m, e = .called (.slogDebug m)) ∨ (∃ c, e = .called (.connect c)) := by
  unfold newNatsConnection at he
  split at he
  · simp at he
    rcases he with rfl | rfl
    · exact Or.inl ⟨_, rfl⟩
    · exact Or.inr ⟨_, rfl⟩
  · simp at he
    exact Or.inr ⟨_, he⟩

/-- Every effect of `start`, whatever returns and whatever does not, is an
effect of `newNatsConnection` or one of the seven statements that follow
the connection, with the arguments computed from the settings. -/
theorem start_trace_cases (w : World) (e : Effect) (he : e ∈ (start w).trace) :
    e ∈ (newNatsConnection w (getString w "name")).1 ∨
    (∃ nc, e = .called (.exporterNew nc .textStdout)) ∨
    (∃ nc, e = .called (.mustRegister ⟨nc, .textStdout⟩)) ∨
    (∃ nc, e = .spawned (.watchForServices ⟨nc, .textStdout⟩
        (getInt w "scrape_interval"))) ∨
    e = .called (.httpHandle "/metrics" .promhttp) ∨
    e = .called (.httpHandleFunc "/" (.page indexPage)) ∨
    e = .called (.loggerInfo .textStdout
        ("starting server on port " ++ (":" ++ toString (getInt w "port")))) ∨
    e = .called (.listenAndServe (":" ++ toString (getInt w "port"))) := by
  unfold start at he
  generalize newNatsConnection w (getString w "name") = r at he ⊢
  obtain ⟨t, res⟩ := r
  cases res with
  | error err => exact Or.inl he
  | ok nc =>
    simp only [runSteps] at he
    rw [List.mem_append] at he
    rcases he with he | he
    · exact Or.inl he
    · right
      split_ifs at he <;> simp at he <;> aesop

/-- The constructor calls of a connected run all carry the connection of
that run and the text logger. -/
theorem start_constructor_call (w : World) (nc : Conn) (hc : Connected w nc)
    (nc2 : Conn) (l : Logger)
    (he : Effect.called (.exporterNew nc2 l) ∈ (start w).trace) :
    nc2 = nc ∧ l = .textStdout := by
  unfold Connected at hc
  have hconn := newNatsConnection_trace_cases w (getString w "name")
    (.called (.exporterNew nc2 l))
  unfold start at he
  generalize newNatsConnection w (getString w "name") = r at hc he hconn
  obtain ⟨t, res⟩ := r
  simp only at hc
  subst hc
  simp only [runSteps] at he
  rw [List.mem_append] at he
  rcases he with he | he
  · rcases hconn he with ⟨m, hm⟩ | ⟨c, hm⟩ <;> simp at hm
  · split_ifs at he <;> simp at he <;> exact ⟨he, by cases l; rfl⟩

/-- The exporter is built and the poller launched as soon as the
connection is there and `exporter.New` and `MustRegister` return. -/
theorem start_spawns (w : World) (nc : Conn) (hc : Connected w nc)
    (hn : w.returns (.exporterNew nc .textStdout) = true)
    (hr : w.returns (.mustRegister ⟨nc, .textStdout⟩) = true) :
    Effect.spawned (.watchForServices ⟨nc, .textStdout⟩ (getInt w "scrape_interval"))
      ∈ (start w).trace := by
  unfold Connected at hc
  unfold start
  generalize newNatsConnection w (getString w "name") = r at hc ⊢
  obtain ⟨t, res⟩ := r
  simp only at hc
  subst hc
  simp [runSteps, hn, hr]

/-- Every launch or call of `WatchForServices` in a run carries the value
of `viper.GetInt("scrape_interval")`. -/
theorem start_watch_interval (w : World) (ex : Exporter) (n : Int)
    (he : Effect.spawned (.watchForServices ex n) ∈ (start w).trace ∨
      Effect.called (.watchForServices ex n) ∈ (start w).trace) :
    n = getInt w "scrape_interval" := by
  rcases he with he | he
  · rcases start_trace_cases w _ he with h | h | h | h | h | h | h | h
    · rcases newNatsConnection_trace_cases w _ _ h with ⟨m, hm⟩ | ⟨c, hm⟩ <;> simp at hm
    · obtain ⟨x, hx⟩ := h; simp at hx
    · obtain ⟨x, hx⟩ := h; simp at hx
    · obtain ⟨x, hx⟩ := h; simp at hx; exact hx.2
    all_goals simp at h
  · rcases start_trace_cases w _ he with h | h | h | h | h | h | h | h
    · rcases newNatsConnection_trace_cases w _ _ h with ⟨m, hm⟩ | ⟨c, hm⟩ <;> simp at hm
    · obtain ⟨x, hx⟩ := h; simp at hx
    · obtain ⟨x, hx⟩ := h; simp at hx
    · obtain ⟨x, hx⟩ := h; simp at hx
    all_goals simp at h

/-- The environment variable viper consults for `scrape_interval`. -/
theorem getEnv_scrape_interval (w : World) :
    getEnv w "scrape_interval" =
      match w.environ.lookup "SCRAPE_INTERVAL" with
      | some v => if v = "" then none else some v
      | none => none := by
  have h : envKey "scrape_interval" = "SCRAPE_INTERVAL" := by decide
  simp [getEnv, h]

/-- The environment variable viper consults for `port`. -/
theorem getEnv_port (w : World) :
    getEnv w "port" =
      match w.environ.lookup "PORT" with
      | some v => if v = "" then none else some v
      | none => none := by
  have h : envKey "port" = "PORT" := by decide
  simp [getEnv, h]

/-- The environment variable viper consults for `nats_urls`. -/
theorem getEnv_nats_urls (w : World) :
    getEnv w "nats_urls" =
      match w.environ.lookup "NATS_URLS" with
      | some v => if v = "" then none else some v
      | none => none := by
  have h : envKey "nats_urls" = "NATS_URLS" := by decide
  simp [getEnv, h]

theorem flag_scrape_interval :
    rootFlags.find? (fun f => f.key == "scrape_interval") =
      some ⟨"scrape-interval", "scrape_interval", .int 15,
        "Scrape interval to look up new services in seconds"⟩ := by decide

theorem flag_port :
    rootFlags.find? (fun f => f.key == "port") =
      some ⟨"port", "port", .int 10015, "exporter port"⟩ := by decide

theorem flag_nats_urls :
    rootFlags.find? (fun f => f.key == "nats_urls") =
      some ⟨"server", "nats_urls", .str "nats://localhost:4222", "NATS URLs"⟩ := by
  decide

/-- The value of `GetInt("scrape_interval")` from each of its sources. -/
theorem getInt_scrape_interval (w : World) :
    (∀ v, w.args.lookup "scrape-interval" = some (.int v) →
      getInt w "scrape_interval" = v) ∧
    (∀ s, w.args.lookup "scrape-interval" = none →
      w.environ.lookup "SCRAPE_INTERVAL" = some s → s ≠ "" →
      getInt w "scrape_interval" = w.castToInt s) ∧
    (w.args.lookup "scrape-interval" = none →
      (w.environ.lookup "SCRAPE_INTERVAL" = none ∨
        w.environ.lookup "SCRAPE_INTERVAL" = some "") →
      getInt w "scrape_interval" = 15) := by
  refine ⟨fun v hv => ?_, fun s hv he hs => ?_, fun hv he => ?_⟩
  · simp [getInt, find_of_flag_given w _ _ _ flag_scrape_interval hv]
  · have h : getEnv w "scrape_interval" = some s := by
      rw [getEnv_scrape_interval, he]; simp [hs]
    simp [getInt, find_of_env w _ _ _ flag_scrape_interval hv h]
  · have h : getEnv w "scrape_interval" = none := by
      rw [getEnv_scrape_interval]; rcases he with he | he <;> simp [he]
    simp [getInt, find_of_default w _ _ flag_scrape_interval hv h]

/-- The value of `GetInt("port")` from each of its sources. -/
theorem getInt_port (w : World) :
    (∀ v, w.args.lookup "port" = some (.int v) → getInt w "port" = v) ∧
    (∀ s, w.args.lookup "port" = none → w.environ.lookup "PORT" = some s → s ≠ "" →
      getInt w "port" = w.castToInt s) ∧
    (w.args.lookup "port" = none →
      (w.environ.lookup "PORT" = none ∨ w.environ.lookup "PORT" = some "") →
      getInt w "port" = 10015) := by
  refine ⟨fun v hv => ?_, fun s hv he hs => ?_, fun hv he => ?_⟩
  · simp [getInt, find_of_flag_given w _ _ _ flag_port hv]
  · have h : getEnv w "port" = some s := by
      rw [getEnv_port, he]; simp [hs]
    simp [getInt, find_of_env w _ _ _ flag_port hv h]
  · have h : getEnv w "port" = none := by
      rw [getEnv_port]; rcases he with he | he <;> simp [he]
    simp [getInt, find_of_default w _ _ flag_port hv h]

/-- The value of `GetString("nats_urls")` from the flag and from its
default. -/
theorem getString_nats_urls (w : World) :
    (∀ s, w.args.lookup "server" = some (.str s) → getString w "nats_urls" = s) ∧
    (w.args.lookup "server" = none →
      (w.environ.lookup "NATS_URLS" = none ∨ w.environ.lookup "NATS_URLS" = some "") →
      getString w "nats_urls" = "nats://localhost:4222") := by
  refine ⟨fun v hv => ?_, fun hv he => ?_⟩
  · simp [getString, find_of_flag_given w _ _ _ flag_nats_urls hv]
  · have h : getEnv w "nats_urls" = none := by
      rw [getEnv_nats_urls]; rcases he with he | he <;> simp [he]
    simp [getString, find_of_default w _ _ flag_nats_urls hv h]

/-- The guard of `newNatsConnection`, spelled out. -/
theorem useContext_iff (w : World) :
    useContext w = true ↔
      (getString w "credentials_file" = "" ∧ getString w "nats_jwt" = "" ∧
        ∃ u, w.environ.lookup "USER" = some u) := by
  simp [useContext, Option.isSome_iff_exists, and_assoc]

/-- No effect of `newNatsConnection` launches a goroutine. -/
theorem newNatsConnection_no_spawn (w : World) (name : String) :
    (newNatsConnection w name).1.filter Effect.isSpawned = [] := by
  unfold newNatsConnection
  split <;> simp [Effect.isSpawned]

/-- Whatever returns and whatever does not, a connected run is an initial
part of the full sequence of effects. -/
theorem start_trace_initial (w : World) (nc : Conn) (hc : Connected w nc) :
    (start w).trace <+:
      (newNatsConnection w (getString w "name")).1 ++
        [ .called (.exporterNew nc .textStdout),
          .called (.mustRegister ⟨nc, .textStdout⟩),
          .spawned (.watchForServices ⟨nc, .textStdout⟩ (getInt w "scrape_interval")),
          .called (.httpHandle "/metrics" .promhttp),
          .called (.httpHandleFunc "/" (.page indexPage)),
          .called (.loggerInfo .textStdout
            ("starting server on port " ++ (":" ++ toString (getInt w "port")))),
          .called (.listenAndServe (":" ++ toString (getInt w "port"))) ] := by
  unfold Connected at hc
  unfold start
  generalize newNatsConnection w (getString w "name") = r at hc ⊢
  obtain ⟨t, res⟩ := r
  simp only at hc
  subst hc
  simp only [runSteps]
  rw [List.prefix_append_right_inj]
  split_ifs <;> exact ⟨_, rfl⟩

/-! ## The claims on `cmd/root.go` -/

/-- C1, refuted as stated: with no `--scrape-interval` flag but
`SCRAPE_INTERVAL=30` in the environment, `start` passes 30 to
`WatchForServices`, not 15. -/
theorem scrape_interval_default_overridden_by_env :
    intervalEnvWorld.args.lookup "scrape-interval" = none ∧
    Effect.spawned (.watchForServices ⟨⟨0⟩, .textStdout⟩ 30)
      ∈ (start intervalEnvWorld).trace ∧
    Effect.spawned (.watchForServices ⟨⟨0⟩, .textStdout⟩ 15)
      ∉ (start intervalEnvWorld).trace := by
  decide

/-- C1 (amended): when the connection succeeds and `exporter.New` and
`MustRegister` return, `start` launches `WatchForServices` with exactly the
value of the `scrape_interval` setting, and no launch or call of
`WatchForServices` carries any other value.  That value is the integer
given with `--scrape-interval` when the flag is given; otherwise what viper
reads from a non-empty `SCRAPE_INTERVAL` environment variable; and 15 when
the flag is not given and `SCRAPE_INTERVAL` is unset or empty. -/
theorem scrape_interval_passed_unchanged (w : World) (nc : Conn)
    (hc : Connected w nc)
    (hn : w.returns (.exporterNew nc .textStdout) = true)
    (hr : w.returns (.mustRegister ⟨nc, .textStdout⟩) = true) :
    Effect.spawned (.watchForServices ⟨nc, .textStdout⟩ (getInt w "scrape_interval"))
      ∈ (start w).trace ∧
    (∀ ex n, (Effect.spawned (.watchForServices ex n) ∈ (start w).trace ∨
        Effect.called (.watchForServices ex n) ∈ (start w).trace) →
      n = getInt w "scrape_interval") ∧
    (∀ v, w.args.lookup "scrape-interval" = some (.int v) →
      getInt w "scrape_interval" = v) ∧
    (∀ s, w.args.lookup "scrape-interval" = none →
      w.environ.lookup "SCRAPE_INTERVAL" = some s → s ≠ "" →
      getInt w "scrape_interval" = w.castToInt s) ∧
    (w.args.lookup "scrape-interval" = none →
      (w.environ.lookup "SCRAPE_INTERVAL" = none ∨
        w.environ.lookup "SCRAPE_INTERVAL" = some "") →
      getInt w "scrape_interval" = 15) :=
  ⟨start_spawns w nc hc hn hr, fun ex n he => start_watch_interval w ex n he,
    getInt_scrape_interval w⟩

/-- C1, witness: started with `--scrape-interval=30` the poller is launched
with 30; started with nothing configured it is given 15. -/
theorem scrape_interval_passed_unchanged_witness :
    Connected flagsWorld ⟨0⟩ ∧
    Effect.spawned (.watchForServices ⟨⟨0⟩, .textStdout⟩ 30) ∈ (start flagsWorld).trace ∧
    getInt quietWorld "scrape_interval" = 15 :=
  ⟨rfl, (scrape_interval_passed_unchanged flagsWorld ⟨0⟩ rfl rfl rfl).1,
    (scrape_interval_passed_unchanged quietWorld ⟨0⟩ rfl rfl rfl).2.2.2.2 rfl
      (Or.inl rfl)⟩

/-- C2, refuted as stated: in the quiet world the one constructor call of
`start` is `exporter.New(nc, logger)`; its two arguments are the connection
and the logger, and the poll interval is not among them. -/
theorem constructor_call_has_no_interval :
    (start quietWorld).trace.filter Effect.isConstructorCall =
      [.called (.exporterNew ⟨0⟩ .textStdout)] ∧
    (Call.exporterNew ⟨0⟩ .textStdout).args = [.conn ⟨0⟩, .logger .textStdout] ∧
    Arg.int (getInt quietWorld "scrape_interval")
      ∉ (Call.exporterNew ⟨0⟩ .textStdout).args := by
  decide

/-- C2 (amended): on every start whose connection succeeds, the constructor
call `exporter.New` is made, and every constructor call receives exactly
two arguments, the connection handle of this run and the logger; the poll
interval is handed over afterwards, as the argument of `WatchForServices`
(once `exporter.New` and `MustRegister` have returned). -/
theorem constructor_receives_connection_and_logger (w : World) (nc : Conn)
    (hc : Connected w nc) :
    Effect.called (.exporterNew nc .textStdout) ∈ (start w).trace ∧
    (∀ nc2 l, Effect.called (.exporterNew nc2 l) ∈ (start w).trace →
      (Call.exporterNew nc2 l).args = [.conn nc, .logger .textStdout]) ∧
    (w.returns (.exporterNew nc .textStdout) = true →
      w.returns (.mustRegister ⟨nc, .textStdout⟩) = true →
      Effect.spawned (.watchForServices ⟨nc, .textStdout⟩ (getInt w "scrape_interval"))
        ∈ (start w).trace ∧
      (Call.watchForServices ⟨nc, .textStdout⟩ (getInt w "scrape_interval")).args =
        [.exporter ⟨nc, .textStdout⟩, .int (getInt w "scrape_interval")]) := by
  refine ⟨?_, fun nc2 l he => ?_, fun hn hr => ⟨start_spawns w nc hc hn hr, rfl⟩⟩
  · have hc2 := hc
    unfold Connected at hc2
    unfold start
    generalize newNatsConnection w (getString w "name") = r at hc2 ⊢
    obtain ⟨t, res⟩ := r
    simp only at hc2
    subst hc2
    simp only [runSteps]
    split_ifs <;> simp
  · obtain ⟨h1, h2⟩ := start_constructor_call w nc hc nc2 l he
    subst h1 h2
    rfl

/-- C2, witness: the quiet world. -/
theorem constructor_receives_connection_and_logger_witness :
    Connected quietWorld ⟨0⟩ ∧
    Effect.called (.exporterNew ⟨0⟩ .textStdout) ∈ (start quietWorld).trace :=
  ⟨rfl, (constructor_receives_connection_and_logger quietWorld ⟨0⟩ rfl).1⟩

/-- C3, refuted as stated: started with `--scrape-interval=0`, `start`
passes the non-positive interval 0 to `WatchForServices`. -/
theorem zero_interval_reaches_poller :
    zeroIntervalWorld.args.lookup "scrape-interval" = some (.int 0) ∧
    Effect.spawned (.watchForServices ⟨⟨0⟩, .textStdout⟩ 0)
      ∈ (start zeroIntervalWorld).trace ∧
    ¬ (0 : Int) > 0 := by
  decide

/-- C3 (amended): `start` does not validate the interval.  For every
integer `v` given with `--scrape-interval`, zero and negative integers
included, a start that connects (with `exporter.New` and `MustRegister`
returning) passes `v` itself to `WatchForServices`; so the interval handed
to the poller is positive exactly when the configured one is. -/
theorem interval_passed_without_validation (w : World) (nc : Conn) (v : Int)
    (hc : Connected w nc)
    (hn : w.returns (.exporterNew nc .textStdout) = true)
    (hr : w.returns (.mustRegister ⟨nc, .textStdout⟩) = true)
    (hv : w.args.lookup "scrape-interval" = some (.int v)) :
    Effect.spawned (.watchForServices ⟨nc, .textStdout⟩ v) ∈ (start w).trace ∧
    (∀ ex n, Effect.spawned (.watchForServices ex n) ∈ (start w).trace →
      (0 < n ↔ 0 < v)) := by
  have hg : getInt w "scrape_interval" = v := (getInt_scrape_interval w).1 v hv
  refine ⟨hg ▸ start_spawns w nc hc hn hr, fun ex n he => ?_⟩
  rw [start_watch_interval w ex n (Or.inl he), hg]

/-- C3, witness: started with `--scrape-interval=-5` the poller is launched
with -5. -/
theorem interval_passed_without_validation_witness :
    Connected negativeIntervalWorld ⟨0⟩ ∧
    Effect.spawned (.watchForServices ⟨⟨0⟩, .textStdout⟩ (-5))
      ∈ (start negativeIntervalWorld).trace :=
  ⟨rfl, (interval_passed_without_validation negativeIntervalWorld ⟨0⟩ (-5)
    rfl rfl rfl rfl).1⟩

/-- C4, refuted as stated: in a shell where `USER` is set, started with
`--server nats://demo.example:4222`, the `nats_urls` setting holds that
URL, yet the only connection attempt is `natscontext.Connect("", name)`. -/
theorem server_flag_ignored_under_context :
    getString loginWorld "nats_urls" = "nats://demo.example:4222" ∧
    (newNatsConnection loginWorld "micro-exporter").1 =
      [ .called (.slogDebug "using NATS context"),
        .called (.connect (.contextConnect "" [.name "micro-exporter"])) ] := by
  decide

/-- C4 (amended): whenever `credentials_file` or `nats_jwt` is non-empty,
or `USER` is not set in the environment, the one connection attempt of
`newNatsConnection` is `nats.Connect` to the value of the `nats_urls`
setting, and its outcome is what is returned; that value is the `--server`
flag when given, and `nats://localhost:4222` when neither the flag nor a
non-empty `NATS_URLS` is given. -/
theorem connects_to_nats_urls (w : World) (name : String)
    (h : getString w "credentials_file" ≠ "" ∨ getString w "nats_jwt" ≠ "" ∨
      w.environ.lookup "USER" = none) :
    (newNatsConnection w name).1 =
      [.called (.connect (.natsConnect (getString w "nats_urls") (connectOpts w name)))] ∧
    (newNatsConnection w name).2 =
      w.dial (.natsConnect (getString w "nats_urls") (connectOpts w name)) ∧
    (∀ s, w.args.lookup "server" = some (.str s) → getString w "nats_urls" = s) ∧
    (w.args.lookup "server" = none →
      (w.environ.lookup "NATS_URLS" = none ∨ w.environ.lookup "NATS_URLS" = some "") →
      getString w "nats_urls" = "nats://localhost:4222") := by
  have hu : useContext w = false := by
    rw [Bool.eq_false_iff, Ne, useContext_iff]
    rintro ⟨h1, h2, u, h3⟩
    rcases h with h | h | h
    · exact h h1
    · exact h h2
    · rw [h3] at h; cases h
  refine ⟨?_, ?_, getString_nats_urls w⟩ <;> simp [newNatsConnection, hu]

/-- C4, witness: a container without `USER`, started with `--creds`. -/
theorem connects_to_nats_urls_witness :
    (getString credsWorld "credentials_file" ≠ "" ∨ getString credsWorld "nats_jwt" ≠ "" ∨
      credsWorld.environ.lookup "USER" = none) ∧
    (newNatsConnection credsWorld "micro-exporter").1 =
      [.called (.connect (.natsConnect "nats://localhost:4222"
        [.name "micro-exporter", .userCredentials "/etc/nats.creds"]))] :=
  ⟨Or.inr (Or.inr rfl),
    (connects_to_nats_urls credsWorld "micro-exporter" (Or.inr (Or.inr rfl))).1⟩

/-- C5: on every start whose connection succeeds, the effects after the
connection follow this order: construct the exporter, register it, launch
`WatchForServices` as a goroutine, install the two HTTP handlers, log, and
call `ListenAndServe`.  The run is an initial part of that sequence, and
the whole of it when the synchronous setup calls return.
`WatchForServices` is never called synchronously; at most one goroutine is
launched, and exactly one when the setup calls return.  Nothing is assumed
about `WatchForServices` returning: the server is reached even when the
poller never returns. -/
theorem start_effect_order (w : World) (nc : Conn) (hc : Connected w nc) :
    (∃ rest, (start w).trace ++ rest =
      (newNatsConnection w (getString w "name")).1 ++
        [ .called (.exporterNew nc .textStdout),
          .called (.mustRegister ⟨nc, .textStdout⟩),
          .spawned (.watchForServices ⟨nc, .textStdout⟩ (getInt w "scrape_interval")),
          .called (.httpHandle "/metrics" .promhttp),
          .called (.httpHandleFunc "/" (.page indexPage)),
          .called (.loggerInfo .textStdout
            ("starting server on port " ++ (":" ++ toString (getInt w "port")))),
          .called (.listenAndServe (":" ++ toString (getInt w "port"))) ] ∧
      (SetupReturns w → rest = [])) ∧
    (∀ ex n, Effect.called (.watchForServices ex n) ∉ (start w).trace) ∧
    ((start w).trace.filter Effect.isSpawned).length ≤ 1 ∧
    (SetupReturns w →
      (start w).trace.filter Effect.isSpawned =
        [.spawned (.watchForServices ⟨nc, .textStdout⟩ (getInt w "scrape_interval"))]) := by
  refine ⟨?_, fun ex n he => ?_, ?_, fun hs => ?_⟩
  · by_cases hs : SetupReturns w
    · exact ⟨[], by rw [List.append_nil, start_trace w nc hc hs], fun _ => rfl⟩
    · obtain ⟨rest, hrest⟩ := start_trace_initial w nc hc
      exact ⟨rest, hrest, fun h => absurd h hs⟩
  · rcases start_trace_cases w _ he with h | h | h | h | h | h | h | h
    · rcases newNatsConnection_trace_cases w _ _ h with ⟨m, hm⟩ | ⟨c, hm⟩ <;> simp at hm
    · obtain ⟨x, hx⟩ := h; simp at hx
    · obtain ⟨x, hx⟩ := h; simp at hx
    · obtain ⟨x, hx⟩ := h; simp at hx
    all_goals simp at h
  · have hsub := ((start_trace_initial w nc hc).sublist.filter Effect.isSpawned).length_le
    rw [List.filter_append, newNatsConnection_no_spawn] at hsub
    simpa [Effect.isSpawned] using hsub
  · rw [start_trace w nc hc hs, List.filter_append, newNatsConnection_no_spawn]
    simp [Effect.isSpawned]

/-- C5, witness: a world in which `WatchForServices` never returns; the
run still ends in `ListenAndServe`, with one goroutine launched. -/
theorem start_effect_order_witness :
    Connected busyWorld ⟨0⟩ ∧ SetupReturns busyWorld ∧
    busyWorld.returns (.watchForServices ⟨⟨0⟩, .textStdout⟩ 15) = false ∧
    (start busyWorld).trace.filter Effect.isSpawned =
      [.spawned (.watchForServices ⟨⟨0⟩, .textStdout⟩ 15)] ∧
    (start busyWorld).trace.getLast? = some (.called (.listenAndServe ":10015")) :=
  ⟨rfl, fun _ h => h, rfl,
    (start_effect_order busyWorld ⟨0⟩ rfl).2.2.2 (fun _ h => h), by decide⟩

/-- C7, refuted as stated: with no `--port` flag but `PORT=8080` in the
environment, `start` listens on `:8080`, not on `:10015`. -/
theorem port_default_overridden_by_env :
    portEnvWorld.args.lookup "port" = none ∧
    (start portEnvWorld).trace.getLast? = some (.called (.listenAndServe ":8080")) ∧
    Effect.called (.listenAndServe ":10015") ∉ (start portEnvWorld).trace := by
  decide

/-- C7 (amended): on every start whose connection succeeds and whose setup
calls return, the last effect is `ListenAndServe` on the address made of a
colon followed by the decimal rendering of the `port` setting, and no other
address is listened on.  The setting is the integer given with `--port`
when the flag is given; 10015 (address `:10015`) when the flag is not given
and the `PORT` environment variable is unset or empty; and, when the flag
is not given and `PORT` is set to a non-empty value, what viper's `GetInt`
reads from that value, so that the server then listens on the colon
followed by the decimal rendering of that reading. -/
theorem listen_address (w : World) (nc : Conn) (hc : Connected w nc)
    (hs : SetupReturns w) :
    (start w).trace.getLast? =
      some (.called (.listenAndServe (":" ++ toString (getInt w "port")))) ∧
    (∀ a, Effect.called (.listenAndServe a) ∈ (start w).trace →
      a = ":" ++ toString (getInt w "port")) ∧
    (∀ p, w.args.lookup "port" = some (.int p) →
      ":" ++ toString (getInt w "port") = ":" ++ toString p) ∧
    (w.args.lookup "port" = none →
      (w.environ.lookup "PORT" = none ∨ w.environ.lookup "PORT" = some "") →
      ":" ++ toString (getInt w "port") = ":10015") ∧
    (∀ s, w.args.lookup "port" = none → w.environ.lookup "PORT" = some s → s ≠ "" →
      ":" ++ toString (getInt w "port") = ":" ++ toString (w.castToInt s) ∧
      (start w).trace.getLast? =
        some (.called (.listenAndServe (":" ++ toString (w.castToInt s))))) := by
  have hlast : (start w).trace.getLast? =
      some (.called (.listenAndServe (":" ++ toString (getInt w "port")))) := by
    rw [start_trace w nc hc hs]
    simp [List.getLast?_append]
  refine ⟨hlast, fun a he => ?_, fun p hp => ?_, fun hp he => ?_, fun s hp he hne => ?_⟩
  · rcases start_trace_cases w _ he with h | h | h | h | h | h | h | h
    · rcases newNatsConnection_trace_cases w _ _ h with ⟨m, hm⟩ | ⟨c, hm⟩ <;> simp at hm
    · obtain ⟨x, hx⟩ := h; simp at hx
    · obtain ⟨x, hx⟩ := h; simp at hx
    · obtain ⟨x, hx⟩ := h; simp at hx
    · simp at h
    · simp at h
    · simp at h
    · simpa using h
  · rw [(getInt_port w).1 p hp]
  · rw [(getInt_port w).2.2 hp he]
    rfl
  · have hg : getInt w "port" = w.castToInt s := (getInt_port w).2.1 s hp he hne
    exact ⟨by rw [hg], by rw [hlast, hg]⟩

/-- C7, witness: started with `--port=9100` the server listens on `:9100`;
with nothing configured, on `:10015`; with no flag and `PORT=8080` in the
environment, on `:8080`. -/
theorem listen_address_witness :
    Connected flagsWorld ⟨0⟩ ∧ SetupReturns flagsWorld ∧
    (start flagsWorld).trace.getLast? = some (.called (.listenAndServe ":9100")) ∧
    (start quietWorld).trace.getLast? = some (.called (.listenAndServe ":10015")) ∧
    Connected portEnvWorld ⟨0⟩ ∧ SetupReturns portEnvWorld ∧
    portEnvWorld.args.lookup "port" = none ∧
    portEnvWorld.environ.lookup "PORT" = some "8080" ∧
    (start portEnvWorld).trace.getLast? = some (.called (.listenAndServe ":8080")) :=
  ⟨rfl, fun _ _ => rfl,
    (listen_address flagsWorld ⟨0⟩ rfl (fun _ _ => rfl)).1,
    (listen_address quietWorld ⟨0⟩ rfl (fun _ _ => rfl)).1,
    rfl, fun _ _ => rfl, rfl, rfl,
    ((listen_address portEnvWorld ⟨0⟩ rfl (fun _ _ => rfl)).2.2.2.2 "8080" rfl rfl
      (by decide)).2⟩

/-- C8: `newNatsConnection` dials through the saved NATS context if and
only if `credentials_file` is empty, `nats_jwt` is empty and `USER` is set
in the environment (to any value, the empty string included).  In that case
its calls are the debug line and `natscontext.Connect("", nats.Name(name))`,
whose outcome it returns; and any two worlds in that case make the same
calls for the same name, whatever their `nats_urls` and `nats_seed`. -/
theorem context_connection_iff (w : World) (name : String) :
    ((∃ n opts, Effect.called (.connect (.contextConnect n opts))
        ∈ (newNatsConnection w name).1) ↔
      (getString w "credentials_file" = "" ∧ getString w "nats_jwt" = "" ∧
        ∃ u, w.environ.lookup "USER" = some u)) ∧
    ((getString w "credentials_file" = "" ∧ getString w "nats_jwt" = "" ∧
        ∃ u, w.environ.lookup "USER" = some u) →
      (newNatsConnection w name).1 =
        [ .called (.slogDebug "using NATS context"),
          .called (.connect (.contextConnect "" [.name name])) ] ∧
      (newNatsConnection w name).2 = w.dial (.contextConnect "" [.name name]) ∧
      ∀ w2 : World,
        (getString w2 "credentials_file" = "" ∧ getString w2 "nats_jwt" = "" ∧
          ∃ u, w2.environ.lookup "USER" = some u) →
        (newNatsConnection w2 name).1 = (newNatsConnection w name).1) := by
  constructor
  · rw [← useContext_iff]
    constructor
    · rintro ⟨n, opts, he⟩
      by_contra hu
      simp [newNatsConnection, hu] at he
    · intro hu
      exact ⟨"", [.name name], by simp [newNatsConnection, hu]⟩
  · intro hcond
    have hu := (useContext_iff w).2 hcond
    refine ⟨by simp [newNatsConnection, hu], by simp [newNatsConnection, hu], ?_⟩
    intro w2 hcond2
    have hu2 := (useContext_iff w2).2 hcond2
    simp [newNatsConnection, hu, hu2]

/-- C8, witness: with `USER` set to the empty string and no credentials the
context is used; the `--server` and `--seed` of the login world change
nothing. -/
theorem context_connection_iff_witness :
    (getString busyWorld "credentials_file" = "" ∧ getString busyWorld "nats_jwt" = "" ∧
      ∃ u, busyWorld.environ.lookup "USER" = some u) ∧
    (newNatsConnection busyWorld "micro-exporter").1 =
      [ .called (.slogDebug "using NATS context"),
        .called (.connect (.contextConnect "" [.name "micro-exporter"])) ] ∧
    (newNatsConnection loginWorld "micro-exporter").1 =
      (newNatsConnection busyWorld "micro-exporter").1 :=
  ⟨⟨rfl, rfl, "", rfl⟩,
    ((context_connection_iff busyWorld "micro-exporter").2 ⟨rfl, rfl, "", rfl⟩).1,
    ((context_connection_iff busyWorld "micro-exporter").2 ⟨rfl, rfl, "", rfl⟩).2.2
      loginWorld ⟨rfl, rfl, "alice", rfl⟩⟩

/-! ## The snapshot build -/

theorem putStat_keys (m : List (ServiceIdentity × ServiceStat)) (s : ServiceStat) :
    (putStat m s).map Prod.fst =
      if s.identity ∈ m.map Prod.fst then m.map Prod.fst
      else m.map Prod.fst ++ [s.identity] := by
  induction m with
  | nil => simp [putStat]
  | cons e rest ih =>
    obtain ⟨k, v⟩ := e
    by_cases hk : k = s.identity
    · simp [putStat, hk]
    · have hk2 : ¬ s.identity = k := fun h => hk h.symm
      simp only [putStat, hk, if_false, List.map_cons, ih, List.mem_cons, hk2, false_or]
      split <;> simp

theorem putStat_lookup (m : List (ServiceIdentity × ServiceStat)) (s : ServiceStat)
    (id : ServiceIdentity) :
    (putStat m s).lookup id = if id = s.identity then some s else m.lookup id := by
  induction m with
  | nil =>
    by_cases h : id = s.identity
    · simp [putStat, List.lookup, h]
    · have hb : (id == s.identity) = false := by simpa using h
      simp [putStat, List.lookup, h, hb]
  | cons e rest ih =>
    obtain ⟨k, v⟩ := e
    by_cases hk : k = s.identity
    · by_cases h : id = s.identity
      · simp [putStat, hk, List.lookup, h]
      · have hb : (id == s.identity) = false := by simpa using h
        simp [putStat, hk, List.lookup, h, hb]
    · by_cases h : id = k
      · simp [putStat, hk, List.lookup, h]
      · have hb : (id == k) = false := by simpa using h
        simp [putStat, hk, List.lookup, hb, ih]

theorem putStat_nodup (m : List (ServiceIdentity × ServiceStat)) (s : ServiceStat)
    (h : (m.map Prod.fst).Nodup) : ((putStat m s).map Prod.fst).Nodup := by
  rw [putStat_keys]
  split
  · exact h
  · rename_i hn
    rw [List.nodup_append]
    refine ⟨h, List.nodup_singleton _, ?_⟩
    intro a ha hb
    simp at hb
    subst hb
    exact hn ha

theorem putStat_toFinset (m : List (ServiceIdentity × ServiceStat)) (s : ServiceStat) :
    ((putStat m s).map Prod.fst).toFinset = insert s.identity (m.map Prod.fst).toFinset := by
  rw [putStat_keys]
  split
  · rename_i hm
    rw [Finset.insert_eq_of_mem (List.mem_toFinset.2 hm)]
  · ext a
    simp [or_comm]

theorem foldl_putStat_nodup (rs : List ServiceStat) (m : List (ServiceIdentity × ServiceStat))
    (h : (m.map Prod.fst).Nodup) : ((rs.foldl putStat m).map Prod.fst).Nodup := by
  induction rs generalizing m with
  | nil => exact h
  | cons s rest ih => exact ih _ (putStat_nodup m s h)

theorem foldl_putStat_toFinset (rs : List ServiceStat)
    (m : List (ServiceIdentity × ServiceStat)) :
    ((rs.foldl putStat m).map Prod.fst).toFinset =
      (m.map Prod.fst).toFinset ∪ (rs.map (fun s => s.identity)).toFinset := by
  induction rs generalizing m with
  | nil => simp
  | cons s rest ih =>
    rw [List.foldl_cons, ih, putStat_toFinset]
    ext a
    simp [or_assoc, or_comm, or_left_comm]

theorem foldl_putStat_lookup (rs : List ServiceStat)
    (m : List (ServiceIdentity × ServiceStat)) (id : ServiceIdentity) :
    (rs.foldl putStat m).lookup id =
      match rs.reverse.find? (fun s => s.identity == id) with
      | some s => some s
      | none => m.lookup id := by
  induction rs generalizing m with
  | nil => simp
  | cons s rest ih =>
    rw [List.foldl_cons, ih, putStat_lookup]
    simp only [List.reverse_cons, List.find?_append]
    cases hf : rest.reverse.find? (fun s => s.identity == id) with
    | some x => simp
    | none =>
      by_cases h : id = s.identity
      · simp [h]
      · have : ¬ s.identity = id := fun h2 => h h2.symm
        simp [h, this]

/-- C6 (on the poller as the specification describes it): for every
sequence of valid responses of one cycle, the identities stored in the
Snapshot are pairwise distinct and there is one entry per distinct identity
among the responses; so N responses of N distinct instances give exactly N
entries (none for N = 0), and a repeated identity adds none.  The entry
read at an identity is the last response received for it: the later
response overwrites the earlier one. -/
theorem snapshot_dedup (capturedAt : Nat) (rs : List ServiceStat) :
    (buildSnapshot capturedAt rs).identities.Nodup ∧
    (buildSnapshot capturedAt rs).entries.length =
      (rs.map (fun s => s.identity)).dedup.length ∧
    ((rs.map (fun s => s.identity)).Nodup →
      (buildSnapshot capturedAt rs).entries.length = rs.length) ∧
    (∀ id, (buildSnapshot capturedAt rs).get id =
      rs.reverse.find? (fun s => s.identity == id)) := by
  have hnd : ((rs.foldl putStat []).map Prod.fst).Nodup :=
    foldl_putStat_nodup rs [] List.nodup_nil
  have hlen : (rs.foldl putStat []).length = (rs.map (fun s => s.identity)).dedup.length := by
    rw [← List.card_toFinset, ← List.length_map (rs.foldl putStat []) Prod.fst,
      ← List.toFinset_card_of_nodup hnd, foldl_putStat_toFinset]
    simp
  refine ⟨hnd, hlen, fun h => ?_, fun id => ?_⟩
  · show (rs.foldl putStat []).length = rs.length
    rw [hlen, List.dedup_eq_self.2 h, List.length_map]
  · show (rs.foldl putStat []).lookup id = _
    rw [foldl_putStat_lookup]
    cases rs.reverse.find? (fun s => s.identity == id) <;> simp

/-- C6, witness: two responses of two instances give two entries; when
the first instance answers a second time the Snapshot still has two
entries and holds its later response. -/
theorem snapshot_dedup_witness :
    ([statA, statB].map (fun s => s.identity)).Nodup ∧
    (buildSnapshot 7 [statA, statB]).entries.length = 2 ∧
    (buildSnapshot 7 [statA, statB, statAlater]).entries.length = 2 ∧
    (buildSnapshot 7 [statA, statB, statAlater]).get ⟨"A", "v1", "inst-1"⟩ =
      some statAlater :=
  ⟨by decide, (snapshot_dedup 7 [statA, statB]).2.2.1 (by decide),
    (snapshot_dedup 7 [statA, statB, statAlater]).2.1,
    (snapshot_dedup 7 [statA, statB, statAlater]).2.2.2 ⟨"A", "v1", "inst-1"⟩⟩

end MicroExporter
